import Mathlib

/-!
Shallow embedding of the plot-plan execution engine of the
`web-wallet/src-tauri/src/mining` module (files `plotter.rs` and
`commands.rs`): the plan data model, the `PlotterRuntime` state, the
advance/batch-boundary algorithm, the progress aggregator, and the
control-path prefix of the dispatch functions.

Rust `u64`/`u32`/`usize` counters are modelled as `Nat` (they only ever
grow by small increments in the modelled paths, so overflow is out of
scope), `f64` progress arithmetic as exact rationals `ℚ`, and the shared
mutable runtime as explicit state passing.  The global cooperative stop
flag of the external `pocx_plotter` engine is carried as a boolean field
of the runtime state.
-/

/-- `StopType` from `plotter.rs`: `None | Soft | Hard`. -/
inductive StopType where
  | None
  | Soft
  | Hard
deriving DecidableEq, Repr

/-- `PlotPlanItem` from `state.rs`: a resume of an interrupted output, a
fresh plot output belonging to a batch, or the `AddToMiner` checkpoint. -/
inductive PlotPlanItem where
  | Resume (path : String) (file_index : Nat) (size_gib : Nat)
  | Plot (path : String) (warps : Nat) (batch_id : Nat)
  | AddToMiner
deriving DecidableEq, Repr

/-- `PlottingProgress` from `plotter.rs`. -/
structure PlottingProgress where
  hashing_warps : Nat
  writing_warps : Nat
  total_warps : Nat
  plot_start_time : Nat
  current_batch_size : Nat
  completed_in_batch : Nat
  progress : ℚ
  speed_mib_s : ℚ
deriving DecidableEq, Repr

/-- `PlotPlan` from `plotter.rs`: ordered items plus a config fingerprint. -/
structure PlotPlan where
  items : List PlotPlanItem
  config_hash : String
  generated_at : Nat
deriving DecidableEq, Repr

/-- The mutable state held by `PlotterRuntime` in `plotter.rs`, together
with the process-wide `pocx_plotter` stop signal (`engine_stop_flag`). -/
structure PlotterRuntime where
  is_running : Bool
  stop_type : StopType
  plan : Option PlotPlan
  current_index : Nat
  progress : PlottingProgress
  engine_stop_flag : Bool
deriving DecidableEq, Repr

/-- `PlottingProgress::default()`: all counters zero. -/
def PlottingProgress.init : PlottingProgress :=
  { hashing_warps := 0, writing_warps := 0, total_warps := 0,
    plot_start_time := 0, current_batch_size := 0, completed_in_batch := 0,
    progress := 0, speed_mib_s := 0 }

/-- `PlotterRuntime::new()`. -/
def PlotterRuntime.init : PlotterRuntime :=
  { is_running := false, stop_type := .None, plan := none,
    current_index := 0, progress := PlottingProgress.init,
    engine_stop_flag := false }

/-- `PlotterRuntime::set_running`. -/
def PlotterRuntime.set_running (rt : PlotterRuntime) (b : Bool) : PlotterRuntime :=
  { rt with is_running := b }

/-- `PlotterRuntime::request_soft_stop`. -/
def PlotterRuntime.request_soft_stop (rt : PlotterRuntime) : PlotterRuntime :=
  { rt with stop_type := .Soft }

/-- `PlotterRuntime::request_hard_stop`: sets the stop type and raises the
engine's cooperative stop signal (`pocx_plotter::request_stop`). -/
def PlotterRuntime.request_hard_stop (rt : PlotterRuntime) : PlotterRuntime :=
  { rt with stop_type := .Hard, engine_stop_flag := true }

/-- `PlotterRuntime::clear_stop`: resets the stop type and clears the
engine's cooperative stop signal (`pocx_plotter::clear_stop_request`). -/
def PlotterRuntime.clear_stop (rt : PlotterRuntime) : PlotterRuntime :=
  { rt with stop_type := .None, engine_stop_flag := false }

/-- `PlotterRuntime::set_plan`: installs the plan and resets the index to 0.
It does not touch the stop type. -/
def PlotterRuntime.set_plan (rt : PlotterRuntime) (p : PlotPlan) : PlotterRuntime :=
  { rt with plan := some p, current_index := 0 }

/-- `PlotterRuntime::clear_plan`: drops the plan and resets the index to 0. -/
def PlotterRuntime.clear_plan (rt : PlotterRuntime) : PlotterRuntime :=
  { rt with plan := none, current_index := 0 }

/-- `PlotterRuntime::reset_progress` (the wall clock is passed in as `now`). -/
def PlotterRuntime.reset_progress (rt : PlotterRuntime)
    (total_warps batch_size now : Nat) : PlotterRuntime :=
  { rt with progress :=
    { hashing_warps := 0, writing_warps := 0, total_warps := total_warps,
      plot_start_time := now, current_batch_size := batch_size,
      completed_in_batch := 0, progress := 0, speed_mib_s := 0 } }

/-- `PlotterRuntime::recalculate_progress`: when `total_warps > 0`, the
percent is a 50/50 blend of the two phase fractions, clamped at 100;
otherwise the stored percent is left untouched. -/
def recalculate_progress (p : PlottingProgress) : PlottingProgress :=
  if p.total_warps > 0 then
    let hashing_pct : ℚ := ((p.hashing_warps : ℚ) / (p.total_warps : ℚ)) * 50
    let writing_pct : ℚ := ((p.writing_warps : ℚ) / (p.total_warps : ℚ)) * 50
    { p with progress := min (hashing_pct + writing_pct) 100 }
  else p

/-- `PlotterRuntime::add_hashing_warps`: accumulate then recalculate. -/
def PlotterRuntime.add_hashing_warps (rt : PlotterRuntime) (warps : Nat) : PlotterRuntime :=
  let p := recalculate_progress
    ({ rt.progress with hashing_warps := rt.progress.hashing_warps + warps })
  { rt with progress := p }

/-- `PlotterRuntime::add_writing_warps`: accumulate then recalculate. -/
def PlotterRuntime.add_writing_warps (rt : PlotterRuntime) (warps : Nat) : PlotterRuntime :=
  let p := recalculate_progress
    ({ rt.progress with writing_warps := rt.progress.writing_warps + warps })
  { rt with progress := p }

/-- `PlotterRuntime::update_speed`. -/
def PlotterRuntime.update_speed (rt : PlotterRuntime) (s : ℚ) : PlotterRuntime :=
  { rt with progress := { rt.progress with speed_mib_s := s } }

/-- The `set_plot_plan` command in `commands.rs`: it only forwards to
`PlotterRuntime::set_plan`. -/
def set_plot_plan (rt : PlotterRuntime) (p : PlotPlan) : PlotterRuntime :=
  rt.set_plan p

/-- The `clear_plot_plan` command in `commands.rs`: clears the plan and
then the stop request. -/
def clear_plot_plan (rt : PlotterRuntime) : PlotterRuntime :=
  (rt.clear_plan).clear_stop

/-- Batch id extraction used by `advance_plot_plan` for the just-completed
item: `Plot` carries a batch id, everything else has none. -/
def batch_id_of : PlotPlanItem → Option Nat
  | .Plot _ _ b => some b
  | _ => none

/-- The `advance_plot_plan` command in `commands.rs` (lines 994-1079):
advance the index, then decide the next item from the stop type and the
batch boundary.  Returns the new runtime state and the optional next item
(`none` means halt). -/
def advance_plot_plan (rt : PlotterRuntime) : PlotterRuntime × Option PlotPlanItem :=
  match rt.plan with
  | none => (rt, none)
  | some plan =>
    let stop_type := rt.stop_type
    let rt1 : PlotterRuntime := { rt with current_index := rt.current_index + 1 }
    let current_index := rt1.current_index
    let total := plan.items.length
    if current_index ≥ total then
      ((rt1.clear_plan).clear_stop, none)
    else
      match stop_type with
      | .Hard => ((rt1.clear_plan).clear_stop, none)
      | .Soft =>
        let prev_item := plan.items.getD (current_index - 1) .AddToMiner
        let next_item := plan.items.getD current_index .AddToMiner
        match next_item with
        | .AddToMiner => (rt1, some .AddToMiner)
        | .Resume _ _ _ => (rt1.clear_stop, none)
        | .Plot p w nb =>
          if batch_id_of prev_item ≠ some nb then (rt1.clear_stop, none)
          else (rt1, some (.Plot p w nb))
      | .None => (rt1, some (plan.items.getD current_index .AddToMiner))

/-- `BatchPlotOutput` from `plotter.rs`. -/
structure BatchPlotOutput where
  path : String
  warps : Nat
deriving DecidableEq, Repr

/-- The task description handed to the external `pocx_plotter` engine
(`build_plotter_task` / `build_plotter_task_batch`): plotting address,
one output record per path, and an optional 32-byte resume seed.  Device
allocation and compression level come from configuration and are opaque
engine parameters, out of scope of the modelled claims. -/
structure EngineTask where
  address : String
  outputs : List BatchPlotOutput
  resume_seed : Option (List Nat)
deriving DecidableEq, Repr

/-- What a successful dispatch produced: either a task handed to the
engine, or an `AddToMiner` checkpoint that completed synchronously in the
control path without any engine dispatch. -/
inductive DispatchOutcome where
  | dispatched (task : EngineTask)
  | checkpoint_done
deriving DecidableEq, Repr

/-- Output collection loop of `execute_plot_batch`: `Plot` and `Resume`
items contribute an output, `AddToMiner` items are skipped. -/
def collect_outputs : List PlotPlanItem → List BatchPlotOutput
  | [] => []
  | .Plot path warps _ :: rest => ⟨path, warps⟩ :: collect_outputs rest
  | .Resume path _ size_gib :: rest => ⟨path, size_gib⟩ :: collect_outputs rest
  | .AddToMiner :: rest => collect_outputs rest

/-- Control-path prefix of `execute_plot_batch` in `plotter.rs` (lines
352-450): reject when already running, clear any previous stop request,
validate the address, collect the outputs, then mark running and hand the
task to the engine.  The background completion handler is asynchronous
and out of scope; the returned pair is the runtime state as left by the
control path and the synchronous result. -/
def execute_plot_batch (rt : PlotterRuntime) (items : List PlotPlanItem)
    (plotting_address : String) : PlotterRuntime × Except String EngineTask :=
  if rt.is_running then (rt, .error "Plotter is already running")
  else
    let rt1 := rt.clear_stop
    if plotting_address = "" then (rt1, .error "No plotting address configured")
    else
      let outputs := collect_outputs items
      if outputs = [] then (rt1, .error "No plot items in batch")
      else (rt1.set_running true,
        .ok { address := plotting_address, outputs := outputs, resume_seed := none })

/-- Character-level splitting, as Rust's `str::split` on a single
separator character behaves: every separator opens a new (possibly empty)
field, and the empty input yields one empty field. -/
def split_on_char (sep : Char) : List Char → List (List Char)
  | [] => [[]]
  | c :: rest =>
    let r := split_on_char sep rest
    if c = sep then [] :: r
    else
      match r with
      | [] => [[c]]
      | g :: gs => (c :: g) :: gs

/-- The final path component, as `Path::file_name` resolves it for the
ordinary file paths produced by the directory scan. -/
def file_name_of (path : String) : List Char :=
  (split_on_char '/' path.data).getLastD path.data

/-- `Path::extension`: the part of the file name after the last dot;
`none` when there is no dot or when the only dot is the leading one. -/
def extension_of (name : List Char) : Option (List Char) :=
  let parts := split_on_char '.' name
  if parts.length ≤ 1 then none
  else if parts.headD [] = [] ∧ parts.length = 2 then none
  else some (parts.getLastD [])

/-- `find_tmp_files`: keep the directory entries whose extension is
`tmp`.  The directory scan itself is filesystem input, passed here as the
list of entry paths. -/
def find_tmp_files (dir_listing : List String) : List String :=
  dir_listing.filter (fun f => extension_of (file_name_of f) = some ['t', 'm', 'p'])

/-- Value of one hexadecimal digit, as `hex::decode` accepts it. -/
def hex_digit_value (c : Char) : Option Nat :=
  if '0' ≤ c ∧ c ≤ '9' then some (c.toNat - '0'.toNat)
  else if 'a' ≤ c ∧ c ≤ 'f' then some (c.toNat - 'a'.toNat + 10)
  else if 'A' ≤ c ∧ c ≤ 'F' then some (c.toNat - 'A'.toNat + 10)
  else none

/-- `hex::decode` over the character list: two hex digits per byte, fails
on an odd length or a non-hex character. -/
def hex_decode_chars : List Char → Option (List Nat)
  | [] => some []
  | [_] => none
  | c1 :: c2 :: rest => do
      let hi ← hex_digit_value c1
      let lo ← hex_digit_value c2
      let tail ← hex_decode_chars rest
      pure ((hi * 16 + lo) :: tail)

/-- `parse_seed_from_tmp_filename`: take the file name, split on
underscores, hex-decode the second field, and require exactly 32 bytes. -/
def parse_seed_from_tmp_filename (filename : String) : Option (List Nat) :=
  let parts := split_on_char '_' (file_name_of filename)
  if parts.length < 2 then none
  else
    match hex_decode_chars (parts.getD 1 []) with
    | none => none
    | some seed_bytes =>
      if seed_bytes.length ≠ 32 then none else some seed_bytes

/-- Control-path prefix of `execute_plot_internal`: validate the address,
build the engine task for the single output, mark running, and hand the
task to the engine. -/
def execute_plot_internal (rt : PlotterRuntime) (drive_path : String)
    (warps : Nat) (plotting_address : String) (resume_seed : Option (List Nat)) :
    PlotterRuntime × Except String DispatchOutcome :=
  if plotting_address = "" then (rt, .error "No plotting address configured")
  else
    let task : EngineTask :=
      { address := plotting_address, outputs := [⟨drive_path, warps⟩],
        resume_seed := resume_seed }
    (rt.set_running true, .ok (.dispatched task))

/-- `execute_resume`: scan the directory for `.tmp` files, fail when none
is found, parse the seed out of the first one, fail when it does not
yield exactly 32 bytes, otherwise dispatch with the seed. -/
def execute_resume (rt : PlotterRuntime) (drive_path : String)
    (size_gib : Nat) (plotting_address : String) (dir_listing : List String) :
    PlotterRuntime × Except String DispatchOutcome :=
  let tmp_files := find_tmp_files dir_listing
  if tmp_files = [] then
    (rt, .error ("No .tmp files found in " ++ drive_path))
  else
    let tmp_file := tmp_files.getD 0 ""
    match parse_seed_from_tmp_filename tmp_file with
    | none => (rt, .error ("Failed to parse seed from .tmp filename: " ++ tmp_file))
    | some seed =>
      execute_plot_internal rt drive_path size_gib plotting_address (some seed)

/-- Control-path prefix of `execute_plot_item` in `plotter.rs` (lines
597-673): reject when already running, clear any previous stop request,
then dispatch by item kind; `AddToMiner` completes synchronously without
touching the engine. -/
def execute_plot_item (rt : PlotterRuntime) (item : PlotPlanItem)
    (plotting_address : String) (dir_listing : List String) :
    PlotterRuntime × Except String DispatchOutcome :=
  if rt.is_running then (rt, .error "Plotter is already running")
  else
    let rt1 := rt.clear_stop
    match item with
    | .Resume path _ size_gib =>
      execute_resume rt1 path size_gib plotting_address dir_listing
    | .Plot path warps _ =>
      execute_plot_internal rt1 path warps plotting_address none
    | .AddToMiner => (rt1, .ok .checkpoint_done)

/-! Concrete fixtures used by the closed instance checks. -/

/-- A four-item plan: two plots of batch 1, a checkpoint, a plot of batch 2. -/
def plan₀ : PlotPlan :=
  { items := [.Plot "a" 10 1, .Plot "b" 10 1, .AddToMiner, .Plot "c" 10 2],
    config_hash := "h", generated_at := 0 }

/-- A two-item plan ending in a resume. -/
def plan₁ : PlotPlan :=
  { items := [.Plot "a" 10 1, .Resume "r" 0 5], config_hash := "h", generated_at := 0 }

/-- Runtime holding `plan₀` at index 0 with a soft stop pending. -/
def rt₀ : PlotterRuntime :=
  { PlotterRuntime.init with plan := some plan₀, stop_type := .Soft }

/-- Runtime holding `plan₀` at index 0 with a hard stop pending. -/
def rtHard : PlotterRuntime :=
  { PlotterRuntime.init with plan := some plan₀, stop_type := .Hard }

/-- Runtime holding `plan₁` at index 0 with a soft stop pending. -/
def rt₁ : PlotterRuntime :=
  { PlotterRuntime.init with plan := some plan₁, stop_type := .Soft }

/-- C1: under a soft stop, when the advanced index is still within the plan,
if the just-completed item and the item at the new index are both `Plot`
items with equal batch ids, `advance_plot_plan` returns the item at the new
index and does not halt; if their batch ids differ, or the completed item
carries no batch id, it clears the stop mode, keeps the plan, and returns
no next item. -/
theorem advance_soft_within_batch (rt : PlotterRuntime) (plan : PlotPlan)
    (hplan : rt.plan = some plan) (hstop : rt.stop_type = StopType.Soft)
    (hlt : rt.current_index + 1 < plan.items.length) :
    (∀ pp pw pb np nw nb,
      plan.items.getD rt.current_index .AddToMiner = .Plot pp pw pb →
      plan.items.getD (rt.current_index + 1) .AddToMiner = .Plot np nw nb →
      (pb = nb →
        advance_plot_plan rt =
          ({ rt with current_index := rt.current_index + 1 }, some (.Plot np nw nb))) ∧
      (pb ≠ nb →
        advance_plot_plan rt =
          (({ rt with current_index := rt.current_index + 1 } : PlotterRuntime).clear_stop,
            none))) ∧
    (∀ np nw nb,
      plan.items.getD (rt.current_index + 1) .AddToMiner = .Plot np nw nb →
      batch_id_of (plan.items.getD rt.current_index .AddToMiner) = none →
      advance_plot_plan rt =
        (({ rt with current_index := rt.current_index + 1 } : PlotterRuntime).clear_stop,
          none)) := by
  have hne : ¬ (plan.items.length ≤ rt.current_index + 1) := by omega
  constructor
  · intro pp pw pb np nw nb hprev hnext
    constructor
    · intro heq
      simp only [advance_plot_plan, hplan, hstop, ge_iff_le, hne, if_false,
        Nat.add_sub_cancel, hprev, hnext]
      subst heq
      simp [batch_id_of]
    · intro hne2
      simp only [advance_plot_plan, hplan, hstop, ge_iff_le, hne, if_false,
        Nat.add_sub_cancel, hprev, hnext]
      simp [batch_id_of, hne2]
  · intro np nw nb hnext hprevnone
    simp only [List.getD, List.get?_eq_getElem?] at hprevnone
    simp only [advance_plot_plan, hplan, hstop, ge_iff_le, hne, if_false,
      Nat.add_sub_cancel, hnext]
    simp [hprevnone]

/-- Instance check for `advance_soft_within_batch` on `rt₀`: completing
item 0 of batch 1 under soft stop continues into item 1 of the same batch. -/
theorem advance_soft_within_batch_check :
    rt₀.current_index + 1 < plan₀.items.length ∧
    advance_plot_plan rt₀ = ({ rt₀ with current_index := 1 }, some (.Plot "b" 10 1)) :=
  ⟨by decide,
    ((advance_soft_within_batch rt₀ plan₀ rfl rfl (by decide)).1
      "a" 10 1 "b" 10 1 rfl rfl).1 rfl⟩

/-- C2: with a hard stop pending and the plan not yet exhausted,
`advance_plot_plan` clears the plan and the stop mode and returns no next
item; a hard stop requested after an earlier soft stop leaves the mode
`Hard`, so the same clearing applies regardless of prior soft-stop state. -/
theorem advance_hard_clears (rt : PlotterRuntime) (plan : PlotPlan)
    (hplan : rt.plan = some plan) (hstop : rt.stop_type = StopType.Hard)
    (hlt : rt.current_index + 1 < plan.items.length) :
    (advance_plot_plan rt).1.plan = none ∧
    (advance_plot_plan rt).1.stop_type = StopType.None ∧
    (advance_plot_plan rt).2 = none ∧
    ((rt.request_soft_stop).request_hard_stop).stop_type = StopType.Hard := by
  have hne : ¬ (plan.items.length ≤ rt.current_index + 1) := by omega
  refine ⟨?_, ?_, ?_, rfl⟩ <;>
    simp [advance_plot_plan, hplan, hstop, hne,
      PlotterRuntime.clear_plan, PlotterRuntime.clear_stop]

/-- Instance check for `advance_hard_clears` on `rtHard`. -/
theorem advance_hard_clears_check :
    rtHard.current_index + 1 < plan₀.items.length ∧
    ((advance_plot_plan rtHard).1.plan = none ∧
      (advance_plot_plan rtHard).1.stop_type = StopType.None ∧
      (advance_plot_plan rtHard).2 = none ∧
      ((rtHard.request_soft_stop).request_hard_stop).stop_type = StopType.Hard) :=
  ⟨by decide, advance_hard_clears rtHard plan₀ rfl rfl (by decide)⟩

/-- C3 counterexample: installing a new plan via the `set_plot_plan`
command while a soft stop is pending leaves the stop mode `Soft`, not
`None`. -/
theorem set_plan_keeps_pending_stop :
    (set_plot_plan ({ PlotterRuntime.init with stop_type := StopType.Soft })
        plan₀).stop_type ≠ StopType.None := by
  decide

/-- C3 amended: for every starting stop mode, explicitly clearing the plan
via the `clear_plot_plan` command resets the stop mode to `None`, while
installing a new plan via `set_plot_plan` leaves the stop mode unchanged
(it is reset only by `clear_stop`, which the start command invokes). -/
theorem clear_plan_resets_stop (rt : PlotterRuntime) (p : PlotPlan) :
    (clear_plot_plan rt).stop_type = StopType.None ∧
    (set_plot_plan rt p).stop_type = rt.stop_type :=
  ⟨rfl, rfl⟩

/-- C4: under a soft stop, when the item at the advanced index is the
`AddToMiner` checkpoint, `advance_plot_plan` returns that checkpoint as
the next item, keeping the plan and keeping the stop mode. -/
theorem advance_soft_checkpoint (rt : PlotterRuntime) (plan : PlotPlan)
    (hplan : rt.plan = some plan) (hstop : rt.stop_type = StopType.Soft)
    (hlt : rt.current_index + 1 < plan.items.length)
    (hnext : plan.items.getD (rt.current_index + 1) .AddToMiner = .AddToMiner) :
    (advance_plot_plan rt).2 = some PlotPlanItem.AddToMiner ∧
    (advance_plot_plan rt).1.plan = some plan ∧
    (advance_plot_plan rt).1.stop_type = StopType.Soft := by
  have hne : ¬ (plan.items.length ≤ rt.current_index + 1) := by omega
  simp only [List.getD, List.get?_eq_getElem?] at hnext
  refine ⟨?_, ?_, ?_⟩ <;>
    simp [advance_plot_plan, hplan, hstop, hne, hnext]

/-- Instance check for `advance_soft_checkpoint`: `rt₀` advanced from
index 1 reaches the checkpoint at index 2 and returns it. -/
theorem advance_soft_checkpoint_check :
    ({ rt₀ with current_index := 1 } : PlotterRuntime).current_index + 1 <
        plan₀.items.length ∧
    ((advance_plot_plan ({ rt₀ with current_index := 1 })).2 =
        some PlotPlanItem.AddToMiner ∧
      (advance_plot_plan ({ rt₀ with current_index := 1 })).1.plan = some plan₀ ∧
      (advance_plot_plan ({ rt₀ with current_index := 1 })).1.stop_type =
        StopType.Soft) :=
  ⟨by decide,
    advance_soft_checkpoint ({ rt₀ with current_index := 1 }) plan₀ rfl rfl
      (by decide) rfl⟩

/-- C5: under a soft stop, when the item at the advanced index is a
`Resume`, `advance_plot_plan` never returns it: it clears the stop mode,
keeps the plan, and returns no next item. -/
theorem advance_soft_resume_halts (rt : PlotterRuntime) (plan : PlotPlan)
    (path : String) (fi sz : Nat)
    (hplan : rt.plan = some plan) (hstop : rt.stop_type = StopType.Soft)
    (hlt : rt.current_index + 1 < plan.items.length)
    (hnext : plan.items.getD (rt.current_index + 1) .AddToMiner = .Resume path fi sz) :
    (advance_plot_plan rt).2 = none ∧
    (advance_plot_plan rt).1.plan = some plan ∧
    (advance_plot_plan rt).1.stop_type = StopType.None := by
  have hne : ¬ (plan.items.length ≤ rt.current_index + 1) := by omega
  simp only [List.getD, List.get?_eq_getElem?] at hnext
  refine ⟨?_, ?_, ?_⟩ <;>
    simp [advance_plot_plan, hplan, hstop, hne, hnext, PlotterRuntime.clear_stop]

/-- Instance check for `advance_soft_resume_halts` on `rt₁`, whose item 1
is a `Resume`. -/
theorem advance_soft_resume_halts_check :
    rt₁.current_index + 1 < plan₁.items.length ∧
    ((advance_plot_plan rt₁).2 = none ∧
      (advance_plot_plan rt₁).1.plan = some plan₁ ∧
      (advance_plot_plan rt₁).1.stop_type = StopType.None) :=
  ⟨by decide, advance_soft_resume_halts rt₁ plan₁ "r" 0 5 rfl rfl (by decide) rfl⟩

/-- Runtime whose progress was reset for a 4-warp batch. -/
def rt₄ : PlotterRuntime := PlotterRuntime.init.reset_progress 4 1 0

/-- C6: whenever `total_warps > 0`, every call to `add_hashing_warps` or
`add_writing_warps` stores `min 100 (50·hashing/total + 50·writing/total)`
recomputed from the accumulated counters. -/
theorem add_warps_recompute_percent (rt : PlotterRuntime) (n : Nat)
    (h : 0 < rt.progress.total_warps) :
    (rt.add_hashing_warps n).progress.progress =
      min 100 (50 * ((rt.progress.hashing_warps : ℚ) + (n : ℚ))
          / (rt.progress.total_warps : ℚ)
        + 50 * (rt.progress.writing_warps : ℚ) / (rt.progress.total_warps : ℚ)) ∧
    (rt.add_writing_warps n).progress.progress =
      min 100 (50 * (rt.progress.hashing_warps : ℚ) / (rt.progress.total_warps : ℚ)
        + 50 * ((rt.progress.writing_warps : ℚ) + (n : ℚ))
          / (rt.progress.total_warps : ℚ)) := by
  constructor
  · simp only [PlotterRuntime.add_hashing_warps, recalculate_progress]
    rw [if_pos h, min_comm]
    push_cast
    ring_nf
  · simp only [PlotterRuntime.add_writing_warps, recalculate_progress]
    rw [if_pos h, min_comm]
    push_cast
    ring_nf

/-- Instance check for `add_warps_recompute_percent` on `rt₄` with two
added warps. -/
theorem add_warps_recompute_percent_check :
    0 < rt₄.progress.total_warps ∧
    ((rt₄.add_hashing_warps 2).progress.progress =
      min 100 (50 * ((rt₄.progress.hashing_warps : ℚ) + (2 : ℚ))
          / (rt₄.progress.total_warps : ℚ)
        + 50 * (rt₄.progress.writing_warps : ℚ) / (rt₄.progress.total_warps : ℚ)) ∧
    (rt₄.add_writing_warps 2).progress.progress =
      min 100 (50 * (rt₄.progress.hashing_warps : ℚ) / (rt₄.progress.total_warps : ℚ)
        + 50 * ((rt₄.progress.writing_warps : ℚ) + (2 : ℚ))
          / (rt₄.progress.total_warps : ℚ))) :=
  ⟨by decide, add_warps_recompute_percent rt₄ 2 (by decide)⟩

/-- Runtime reset for a 1024-warp batch after 512 hashing warps arrived. -/
def rtHalfHashed : PlotterRuntime :=
  (PlotterRuntime.init.reset_progress 1024 1 0).add_hashing_warps 512

/-- C7 counterexample: for `total_warps = 1024`, after adding 512 hashing
warps and 1024 writing warps, the stored percent is not 100. -/
theorem progress_scenario_not_hundred :
    ¬ ((rtHalfHashed.add_writing_warps 1024).progress.progress = 100) := by
  norm_num [rtHalfHashed, PlotterRuntime.add_hashing_warps,
    PlotterRuntime.add_writing_warps, recalculate_progress,
    PlotterRuntime.reset_progress, PlotterRuntime.init, PlottingProgress.init,
    min_def]

/-- C7 amended: for `total_warps = 1024`, after `hashing_warps = 512` and
`writing_warps = 0` the percent is 25; after `writing_warps = 1024` as
well it is 75 (each phase weighs 50 points); with `writing_warps = 2048`
the blend 125 is clamped to 100. -/
theorem progress_scenario_exact :
    rtHalfHashed.progress.progress = 25 ∧
    (rtHalfHashed.add_writing_warps 1024).progress.progress = 75 ∧
    (rtHalfHashed.add_writing_warps 2048).progress.progress = 100 := by
  refine ⟨?_, ?_, ?_⟩ <;>
    norm_num [rtHalfHashed, PlotterRuntime.add_hashing_warps,
      PlotterRuntime.add_writing_warps, recalculate_progress,
      PlotterRuntime.reset_progress, PlotterRuntime.init, PlottingProgress.init,
      min_def]

/-- C10: when `total_warps = 0`, `add_hashing_warps` and
`add_writing_warps` accumulate their counter but leave the stored percent
untouched: the division by `total_warps` is guarded by `total_warps > 0`
and is never evaluated with a zero divisor. -/
theorem add_warps_zero_total_guard (rt : PlotterRuntime) (n : Nat)
    (h : rt.progress.total_warps = 0) :
    (rt.add_hashing_warps n).progress.progress = rt.progress.progress ∧
    (rt.add_hashing_warps n).progress.hashing_warps = rt.progress.hashing_warps + n ∧
    (rt.add_writing_warps n).progress.progress = rt.progress.progress ∧
    (rt.add_writing_warps n).progress.writing_warps = rt.progress.writing_warps + n := by
  refine ⟨?_, ?_, ?_, ?_⟩ <;>
    simp [PlotterRuntime.add_hashing_warps, PlotterRuntime.add_writing_warps,
      recalculate_progress, h]

/-- Instance check for `add_warps_zero_total_guard` on the fresh runtime
(total 0) with three added warps. -/
theorem add_warps_zero_total_guard_check :
    PlotterRuntime.init.progress.total_warps = 0 ∧
    ((PlotterRuntime.init.add_hashing_warps 3).progress.progress =
        PlotterRuntime.init.progress.progress ∧
      (PlotterRuntime.init.add_hashing_warps 3).progress.hashing_warps =
        PlotterRuntime.init.progress.hashing_warps + 3 ∧
      (PlotterRuntime.init.add_writing_warps 3).progress.progress =
        PlotterRuntime.init.progress.progress ∧
      (PlotterRuntime.init.add_writing_warps 3).progress.writing_warps =
        PlotterRuntime.init.progress.writing_warps + 3) :=
  ⟨rfl, add_warps_zero_total_guard PlotterRuntime.init 3 rfl⟩

/-- C8: dispatching a batch or a single item while `is_running` is true is
rejected with the rejection error, leaves the runtime state (plan, index,
progress counters) exactly unchanged, and hands no task to the engine. -/
theorem dispatch_rejected_while_running (rt : PlotterRuntime)
    (items : List PlotPlanItem) (item : PlotPlanItem) (addr : String)
    (listing : List String) (h : rt.is_running = true) :
    execute_plot_batch rt items addr = (rt, .error "Plotter is already running") ∧
    execute_plot_item rt item addr listing =
      (rt, .error "Plotter is already running") := by
  constructor
  · simp [execute_plot_batch, h]
  · simp [execute_plot_item, h]

/-- Instance check for `dispatch_rejected_while_running` on a running
runtime, one plot item, and one singleton batch. -/
theorem dispatch_rejected_while_running_check :
    (PlotterRuntime.init.set_running true).is_running = true ∧
    (execute_plot_batch (PlotterRuntime.init.set_running true)
        [.Plot "p" 5 1] "addr" =
      (PlotterRuntime.init.set_running true, .error "Plotter is already running") ∧
    execute_plot_item (PlotterRuntime.init.set_running true)
        (.Plot "p" 5 1) "addr" [] =
      (PlotterRuntime.init.set_running true, .error "Plotter is already running")) :=
  ⟨rfl, dispatch_rejected_while_running (PlotterRuntime.init.set_running true)
    [.Plot "p" 5 1] (.Plot "p" 5 1) "addr" [] rfl⟩

/-- C9: for a `Resume` item, when the directory scan finds no `.tmp` file,
or when the first `.tmp` file found does not parse to exactly 32 seed
bytes, `execute_plot_item` returns an immediate error, never builds an
engine task, and leaves `is_running` false. -/
theorem resume_resolution_errors (rt : PlotterRuntime) (path : String)
    (fi sz : Nat) (addr : String) (listing : List String)
    (hrun : rt.is_running = false) :
    (find_tmp_files listing = [] →
      execute_plot_item rt (.Resume path fi sz) addr listing =
        (rt.clear_stop, .error ("No .tmp files found in " ++ path)) ∧
      (execute_plot_item rt (.Resume path fi sz) addr listing).1.is_running = false) ∧
    (∀ f rest, find_tmp_files listing = f :: rest →
      parse_seed_from_tmp_filename f = none →
      execute_plot_item rt (.Resume path fi sz) addr listing =
        (rt.clear_stop, .error ("Failed to parse seed from .tmp filename: " ++ f)) ∧
      (execute_plot_item rt (.Resume path fi sz) addr listing).1.is_running = false) := by
  constructor
  · intro hempty
    have heq : execute_plot_item rt (.Resume path fi sz) addr listing =
        (rt.clear_stop, .error ("No .tmp files found in " ++ path)) := by
      simp [execute_plot_item, hrun, execute_resume, hempty]
    exact ⟨heq, by rw [heq]; simpa [PlotterRuntime.clear_stop] using hrun⟩
  · intro f rest hfound hparse
    have heq : execute_plot_item rt (.Resume path fi sz) addr listing =
        (rt.clear_stop, .error ("Failed to parse seed from .tmp filename: " ++ f)) := by
      simp [execute_plot_item, hrun, execute_resume, hfound, hparse]
    exact ⟨heq, by rw [heq]; simpa [PlotterRuntime.clear_stop] using hrun⟩

/-- Instance check for `resume_resolution_errors`: a directory with no
`.tmp` entry, and one whose only `.tmp` entry has a two-character (not
64-character) hex seed field. -/
theorem resume_resolution_errors_check :
    (find_tmp_files ["d/x.dat"] = [] ∧
      execute_plot_item PlotterRuntime.init (.Resume "d" 0 5) "addr" ["d/x.dat"] =
        (PlotterRuntime.init.clear_stop, .error ("No .tmp files found in " ++ "d")) ∧
      (execute_plot_item PlotterRuntime.init
          (.Resume "d" 0 5) "addr" ["d/x.dat"]).1.is_running = false) ∧
    (find_tmp_files ["d/acct_ab_10_X1.tmp"] = ["d/acct_ab_10_X1.tmp"] ∧
      parse_seed_from_tmp_filename "d/acct_ab_10_X1.tmp" = none ∧
      execute_plot_item PlotterRuntime.init
          (.Resume "d" 0 5) "addr" ["d/acct_ab_10_X1.tmp"] =
        (PlotterRuntime.init.clear_stop,
          .error ("Failed to parse seed from .tmp filename: " ++ "d/acct_ab_10_X1.tmp")) ∧
      (execute_plot_item PlotterRuntime.init
          (.Resume "d" 0 5) "addr" ["d/acct_ab_10_X1.tmp"]).1.is_running = false) := by
  refine ⟨⟨?_, ?_⟩, ⟨?_, ?_, ?_⟩⟩
  · rfl
  · exact (resume_resolution_errors PlotterRuntime.init "d" 0 5 "addr"
      ["d/x.dat"] rfl).1 rfl
  · rfl
  · rfl
  · exact (resume_resolution_errors PlotterRuntime.init "d" 0 5 "addr"
      ["d/acct_ab_10_X1.tmp"] rfl).2 "d/acct_ab_10_X1.tmp" [] rfl rfl
